import Mathlib

/-!
Verification of the snapshot-ingestion pipeline of the albion_helper
repository, as a shallow embedding in Lean 4.

The embedded code lives in `src/app/data/dump_manager.py` and
`src/app/data/history_db.py`.  Python strings are modelled as Lean
`String`/`List Char`; Python `None`-able values as `Option`; the DuckDB
`market_history` table as a `List HistoryRow`; SQL streams as `List String`
of lines.  Every definition is translated from the source; divergences
forced by the embedding (e.g. SQL `DATE_TRUNC`) are noted at the
definition they concern.
-/

deriving instance DecidableEq for Except

namespace AlbionHelper

/-! ## Python string primitives -/

/-- Whitespace characters removed by Python's `str.strip()`. -/
def pyIsSpace (c : Char) : Bool :=
  c = ' ' || c = '\t' || c = '\n' || c = '\r' || c = '\x0b' || c = '\x0c'

/-- `str.strip()` on a character list. -/
def pyStripL (l : List Char) : List Char :=
  ((l.dropWhile pyIsSpace).reverse.dropWhile pyIsSpace).reverse

/-- Python `str.strip()`. -/
def pyStrip (s : String) : String := ⟨pyStripL s.data⟩

/-- Python `str.upper()` (ASCII, as used on SQL keywords). -/
def pyUpper (s : String) : String := ⟨s.data.map Char.toUpper⟩

/-- Lexicographic strict comparison of char lists, i.e. Python `<` on `str`. -/
def strLtL : List Char → List Char → Bool
  | [], [] => false
  | [], _ :: _ => true
  | _ :: _, [] => false
  | a :: as, b :: bs => if a < b then true else if b < a then false else strLtL as bs

/-- Lexicographic comparison of char lists, i.e. Python `<=` on `str`. -/
def strLeL : List Char → List Char → Bool
  | [], _ => true
  | _ :: _, [] => false
  | a :: as, b :: bs => if a < b then true else if b < a then false else strLeL as bs

/-- Python `<` on strings. -/
def strLt (a b : String) : Bool := strLtL a.data b.data

/-- Python `<=` on strings. -/
def strLe (a b : String) : Bool := strLeL a.data b.data

/-- Does `t` start with the pattern `p`? -/
def startsWithL : List Char → List Char → Bool
  | [], _ => true
  | _ :: _, [] => false
  | p :: ps, t :: ts => p == t && startsWithL ps ts

/-- Python `pat in text` (substring containment) on char lists. -/
def containsSubL (pat : List Char) : List Char → Bool
  | [] => pat.isEmpty
  | t :: ts => startsWithL pat (t :: ts) || containsSubL pat ts

/-- Python `pat in text` on strings. -/
def containsSub (pat text : String) : Bool := containsSubL pat.data text.data

/-- Python `text.find(pat)`: index of the leftmost occurrence of `pat`. -/
def findSubL (pat : List Char) : List Char → Option Nat
  | [] => if pat.isEmpty then some 0 else none
  | t :: ts =>
    if startsWithL pat (t :: ts) then some 0
    else match findSubL pat ts with
      | some n => some (n + 1)
      | none => none

/-- Python `text.find(pat)` on strings. -/
def findSub (pat text : String) : Option Nat := findSubL pat.data text.data

/-- Python `str.rstrip(chars)`: drop trailing characters from the given set. -/
def pyRStripChars (chars : List Char) (s : String) : String :=
  ⟨(s.data.reverse.dropWhile (fun c => chars.contains c)).reverse⟩

/-- Digits of a char list interpreted as a base-10 natural number. -/
def digitsToNat (l : List Char) : Nat :=
  l.foldl (fun acc c => acc * 10 + (c.toNat - '0'.toNat)) 0

/-- Decimal parse of a digit-only nonempty string, as done by Python `int`. -/
def pyDigits : List Char → Option Nat
  | [] => none
  | l => if l.all Char.isDigit then some (digitsToNat l) else none

/-- Python `int(s)` on an already-stripped string: optional sign followed by
digits.  (Python additionally allows underscores between digits; the dump
decoder never feeds such input.) -/
def pyInt (s : String) : Option Int :=
  match s.data with
  | '-' :: rest => (pyDigits rest).map (fun n => -(n : Int))
  | '+' :: rest => (pyDigits rest).map (fun n => (n : Int))
  | l => (pyDigits l).map (fun n => (n : Int))

/-! ## Fixed-shape pattern matching (embedding of the fixed-width regexes) -/

/-- Match a list of character predicates against a char list of the same
length.  Used to embed the fixed-width regex fragments of the source. -/
def shapeOf : List (Char → Bool) → List Char → Bool
  | [], [] => true
  | p :: ps, c :: cs => p c && shapeOf ps cs
  | _, _ => false

/-- Predicate for a single literal character. -/
def chIs (c : Char) : Char → Bool := fun x => x = c

/-- Pattern for `\d{4}-\d{2}-\d{2}`, the bare-date regex. -/
def datePat : List (Char → Bool) :=
  [Char.isDigit, Char.isDigit, Char.isDigit, Char.isDigit, chIs '-',
   Char.isDigit, Char.isDigit, chIs '-', Char.isDigit, Char.isDigit]

/-- Pattern for the time suffix `" HH:MM:SS"`. -/
def timePat : List (Char → Bool) :=
  [chIs ' ', Char.isDigit, Char.isDigit, chIs ':', Char.isDigit, Char.isDigit,
   chIs ':', Char.isDigit, Char.isDigit]

/-- Pattern for `\d{4}-\d{2}-\d{2} \d{2}:\d{2}:\d{2}` (19 characters). -/
def tsPat : List (Char → Bool) := datePat ++ timePat

/-- Does a char list have exactly the `YYYY-MM-DD HH:MM:SS` shape? -/
def tsShape (l : List Char) : Bool := shapeOf tsPat l

/-- Does a char list have exactly the `YYYY-MM-DD` shape?  Embeds the
`re.fullmatch` in `_normalize_timestamp_for_compare`. -/
def dateShape (l : List Char) : Bool := shapeOf datePat l

/-- Leftmost 19-character substring of timestamp shape, embedding the
`re.search` in `_normalize_timestamp_for_compare`. -/
def searchTS : List Char → Option (List Char)
  | [] => none
  | c :: rest =>
    let cand := (c :: rest).take 19
    if tsShape cand then some cand else searchTS rest

/-- `_normalize_timestamp_for_compare` (dump_manager.py).  `none` models the
Python `None` input and result. -/
def normalizeTimestampForCompare (timestamp : Option String) : Option String :=
  match timestamp with
  | none => none
  | some raw =>
    let text := pyStrip raw
    match searchTS text.data with
    | some m => some ⟨m⟩
    | none =>
      if dateShape text.data then some (text ++ " 00:00:00") else none

/-! ## Staging rows and the streaming CSV writer -/

/-- A decoded staging record, i.e. the Python dict produced by the record
decoder.  `none` models an absent or `None` dict entry. -/
structure MarketRecord where
  item_id : Option String
  location : Option String
  quality : Option Int
  timestamp : Option String
  sell_price_min : Option Int
  sell_price_max : Option Int
  buy_price_min : Option Int
  buy_price_max : Option Int
  item_count : Option Int
deriving Repr, DecidableEq

/-- Python truthiness test `not value` for an optional string: `None` and the
empty string are falsy. -/
def falsyStr : Option String → Bool
  | none => true
  | some s => s.isEmpty

/-- The mutable counters and output buffer of `StreamingCSVWriter`.
`rows` models the records appended to the on-disk CSV file. -/
structure WriterState where
  rows : List MarketRecord
  count : Nat
  skipped_existing : Nat
  date_start : Option String
  date_end : Option String
deriving Repr, DecidableEq

/-- Writer state immediately after `__enter__` (header written, no rows). -/
def initWriter : WriterState :=
  { rows := [], count := 0, skipped_existing := 0, date_start := none, date_end := none }

/-- The constructor normalizes `min_timestamp_exclusive` once, via
`_normalize_timestamp_for_compare`. -/
def mkWriterCutoff (minTimestampExclusive : Option String) : Option String :=
  normalizeTimestampForCompare minTimestampExclusive

/-- `StreamingCSVWriter.write_record`.  The progress-callback and logging
side effects are not part of the state. -/
def writeRecord (minTsExclusive : Option String) (st : WriterState)
    (record : MarketRecord) : WriterState :=
  if falsyStr record.item_id || falsyStr record.timestamp then st
  else
    let normalized := normalizeTimestampForCompare record.timestamp
    let skip : Bool :=
      match minTsExclusive, normalized with
      | some cutoff, some n => strLe n cutoff
      | _, _ => false
    if skip then { st with skipped_existing := st.skipped_existing + 1 }
    else
      let dateValue :=
        (match normalized with
         | some n => n
         | none => record.timestamp.getD "").take 10
      let dateStart :=
        match st.date_start with
        | none => some dateValue
        | some s => if strLt dateValue s then some dateValue else some s
      let dateEnd :=
        match st.date_end with
        | none => some dateValue
        | some e => if strLt e dateValue then some dateValue else some e
      { st with
        rows := st.rows ++ [record],
        count := st.count + 1,
        date_start := dateStart,
        date_end := dateEnd }

/-- `StreamingCSVWriter.write_records`. -/
def writeRecords (minTsExclusive : Option String) (st : WriterState)
    (records : List MarketRecord) : WriterState :=
  records.foldl (writeRecord minTsExclusive) st

/-! ## Run state tracker (`DumpManager` progress state machine) -/

/-- The progress dict held by `DumpManager._progress`.  `status` and `stage`
are the literal strings used by the source (`"idle"`, `"running"`,
`"completed"`, `"failed"`).  `result` stands for the result payload dict;
`progress_pct` (a Python float clamped to `[0, 100]`) is modelled as `Rat`.
`max_dumps` is absent from the empty state and added by `_start_progress`. -/
structure ProgressState where
  run_id : Option String
  status : String
  stage : String
  message : String
  progress_pct : Rat
  started_at : Option String
  updated_at : Option String
  finished_at : Option String
  total_dumps : Nat
  completed_dumps : Nat
  current_dump : Option String
  downloaded_bytes : Nat
  download_total_bytes : Nat
  records_parsed : Nat
  records_skipped_existing : Nat
  records_imported : Nat
  errors : List String
  result : Option String
  max_dumps : Option Nat
deriving Repr, DecidableEq

/-- `DumpManager._empty_progress_state`. -/
def emptyProgressState : ProgressState :=
  { run_id := none, status := "idle", stage := "idle",
    message := "No database update in progress", progress_pct := 0,
    started_at := none, updated_at := none, finished_at := none,
    total_dumps := 0, completed_dumps := 0, current_dump := none,
    downloaded_bytes := 0, download_total_bytes := 0,
    records_parsed := 0, records_skipped_existing := 0, records_imported := 0,
    errors := [], result := none, max_dumps := none }

/-- `DumpManager._start_progress`.  `now` is the caller-supplied wall-clock
string (`_now_iso` in the source). -/
def startProgress (runId : String) (maxDumps : Nat) (now : String) : ProgressState :=
  { emptyProgressState with
    run_id := some runId, status := "running", stage := "starting",
    message := "Starting database update...", progress_pct := 1,
    started_at := some now, updated_at := some now,
    max_dumps := some maxDumps }

/-- The tracker-relevant state of a `DumpManager`: whether `_update_lock` is
held and the current progress dict. -/
structure ManagerState where
  updateLockHeld : Bool
  progress : ProgressState
deriving Repr, DecidableEq

/-- The immediate (caller-visible) effect of
`DumpManager.start_background_update`: the try-acquire of `_update_lock` and
the initialisation of the progress state.  The spawned background thread is
outside this synchronous step.  Returns the new state and the `started`
flag of the response dict. -/
def startBackgroundUpdate (s : ManagerState) (runId : String) (maxDumps : Nat)
    (now : String) : ManagerState × Bool :=
  if s.updateLockHeld then (s, false)
  else ({ updateLockHeld := true, progress := startProgress runId maxDumps now }, true)

/-- `DumpManager.clear_update_progress`.  An `error` result models the
`RuntimeError` raised while a run is active (which leaves the state
untouched); otherwise the state is reset to the empty (idle) state with a
fresh `updated_at`. -/
def clearUpdateProgress (s : ManagerState) (now : String) :
    Except String (ManagerState × ProgressState) :=
  if s.progress.status = "running" then
    .error "Cannot clear update progress while an update is running"
  else
    let p := { emptyProgressState with updated_at := some now }
    .ok ({ s with progress := p }, p)

/-! ## Time-series store (`history_db.py`): `market_history` table -/

/-- One persisted row of the `market_history` table.  The schema declares
`item_id`, `location`, `timestamp` as `NOT NULL` and
`PRIMARY KEY (item_id, location, quality, timestamp)`; the four price
columns and `item_count` are nullable `INTEGER`. -/
structure HistoryRow where
  item_id : String
  location : String
  quality : Int
  timestamp : String
  sell_price_min : Option Int
  sell_price_max : Option Int
  buy_price_min : Option Int
  buy_price_max : Option Int
  item_count : Option Int
deriving Repr, DecidableEq

/-- The unique key of a row: `(item_id, location, quality, timestamp)`. -/
def rowKey (r : HistoryRow) : String × String × Int × String :=
  (r.item_id, r.location, r.quality, r.timestamp)

/-- SQL `COALESCE(a, b)` on nullable integers. -/
def coalesce (a b : Option Int) : Option Int :=
  match a with
  | some v => some v
  | none => b

/-- The `DO UPDATE SET` clause of `bulk_insert_from_csv`: each updatable
column becomes `COALESCE(excluded.col, market_history.col)`. -/
def coalesceUpdate (existing incoming : HistoryRow) : HistoryRow :=
  { existing with
    sell_price_min := coalesce incoming.sell_price_min existing.sell_price_min,
    sell_price_max := coalesce incoming.sell_price_max existing.sell_price_max,
    buy_price_min := coalesce incoming.buy_price_min existing.buy_price_min,
    buy_price_max := coalesce incoming.buy_price_max existing.buy_price_max,
    item_count := coalesce incoming.item_count existing.item_count }

/-- Insertion of one CSV row by the `INSERT ... ON CONFLICT ... DO UPDATE`
statement of `bulk_insert_from_csv`: on a duplicate key the conflicting row
is updated with the coalesce rule, otherwise the row is appended.  (The
primary key makes the conflicting row unique; mapping over all key-equal
rows coincides with updating that one row.) -/
def upsertRow (table : List HistoryRow) (r : HistoryRow) : List HistoryRow :=
  if table.any (fun t => rowKey t == rowKey r) then
    table.map (fun t => if rowKey t == rowKey r then coalesceUpdate t r else t)
  else
    table ++ [r]

/-- `HistoryDatabase.bulk_insert_from_csv`: counts the table rows before,
bulk-upserts every CSV row, counts afterwards, and returns
`after_count - before_count` as the inserted count. -/
def bulkInsertFromCsv (table : List HistoryRow) (csvRows : List HistoryRow) :
    List HistoryRow × Int :=
  let beforeCount := table.length
  let afterTable := csvRows.foldl upsertRow table
  (afterTable, (afterTable.length : Int) - (beforeCount : Int))

/-- One row of the `INSERT OR REPLACE` statement used by
`HistoryDatabase.insert_records`: on a duplicate key the whole existing row
is replaced by the incoming one. -/
def insertOrReplaceRow (table : List HistoryRow) (r : HistoryRow) : List HistoryRow :=
  if table.any (fun t => rowKey t == rowKey r) then
    table.map (fun t => if rowKey t == rowKey r then r else t)
  else
    table ++ [r]

/-- `HistoryDatabase.insert_records` on well-formed rows (the dict→tuple
extraction with its `quality` default already applied).  On the success path
the returned count accumulates `len(values)` per batch, i.e. the total
number of submitted records, independent of replacements; batching by
`batch_size` does not change the resulting table. -/
def insertRecords (table : List HistoryRow) (records : List HistoryRow) :
    List HistoryRow × Nat :=
  (records.foldl insertOrReplaceRow table, records.length)

/-! ## Snapshot catalog and selection policy -/

/-- A Python `datetime` value.  Comparison of valid datetimes is
lexicographic on the components. -/
structure PyDateTime where
  year : Nat
  month : Nat
  day : Nat
  hour : Nat
  minute : Nat
  second : Nat
deriving Repr, DecidableEq

/-- Strict `datetime <`: lexicographic on the components. -/
abbrev dtLtProp (a b : PyDateTime) : Prop :=
  a.year < b.year ∨ (a.year = b.year ∧ (a.month < b.month ∨ (a.month = b.month ∧
  (a.day < b.day ∨ (a.day = b.day ∧ (a.hour < b.hour ∨ (a.hour = b.hour ∧
  (a.minute < b.minute ∨ (a.minute = b.minute ∧ a.second < b.second)))))))))

/-- Boolean `datetime <`. -/
def dtLt (a b : PyDateTime) : Bool := decide (dtLtProp a b)

/-- Python `<=` on pairs of datetimes (tuple comparison is lexicographic). -/
abbrev keyLeProp (a b : PyDateTime × PyDateTime) : Prop :=
  dtLtProp a.1 b.1 ∨ (a.1 = b.1 ∧ (dtLtProp a.2 b.2 ∨ a.2 = b.2))

/-- Boolean tuple `<=` used to order sort keys. -/
def keyLe (a b : PyDateTime × PyDateTime) : Bool := decide (keyLeProp a b)

/-- `DumpInfo` (dump_manager.py). -/
structure DumpInfo where
  name : String
  url : String
  size_bytes : Nat
  modified_date : PyDateTime
  dump_type : String
deriving Repr, DecidableEq

/-- The optional `T HH_MM_SS` group of the backup-name regex. -/
def parseBackupTime : List Char → Option (Nat × Nat × Nat)
  | 'T' :: h1 :: h2 :: '_' :: m1 :: m2 :: '_' :: s1 :: s2 :: _ =>
    if h1.isDigit && h2.isDigit && m1.isDigit && m2.isDigit &&
        s1.isDigit && s2.isDigit then
      some (digitsToNat [h1, h2], digitsToNat [m1, m2], digitsToNat [s1, s2])
    else none
  | _ => none

/-- Match `db_backup_(\d{4})-(\d{2})-(\d{2})(?:T(\d{2})_(\d{2})_(\d{2}))?` at
the start of a char list; without a time group the coverage end is the end
of the encoded day, `23:59:59`. -/
def parseBackupAt : List Char → Option PyDateTime
  | 'd' :: 'b' :: '_' :: 'b' :: 'a' :: 'c' :: 'k' :: 'u' :: 'p' :: '_' ::
    y1 :: y2 :: y3 :: y4 :: '-' :: mo1 :: mo2 :: '-' :: d1 :: d2 :: rest =>
    if y1.isDigit && y2.isDigit && y3.isDigit && y4.isDigit &&
        mo1.isDigit && mo2.isDigit && d1.isDigit && d2.isDigit then
      let y := digitsToNat [y1, y2, y3, y4]
      let mo := digitsToNat [mo1, mo2]
      let d := digitsToNat [d1, d2]
      match parseBackupTime rest with
      | some (h, mi, s) =>
        some { year := y, month := mo, day := d, hour := h, minute := mi, second := s }
      | none =>
        some { year := y, month := mo, day := d, hour := 23, minute := 59, second := 59 }
    else none
  | _ => none

/-- Leftmost match of the backup-name regex (`re.search`). -/
def searchBackup : List Char → Option PyDateTime
  | [] => none
  | c :: rest =>
    match parseBackupAt (c :: rest) with
    | some dt => some dt
    | none => searchBackup rest

/-- `DumpManager._dump_coverage_end`. -/
def dumpCoverageEnd (d : DumpInfo) : Option PyDateTime :=
  if d.dump_type = "daily" then searchBackup d.name.data else none

/-- `DumpManager._daily_snapshot_sort_key`. -/
def dailySnapshotSortKey (d : DumpInfo) : PyDateTime × PyDateTime :=
  match dumpCoverageEnd d with
  | some coverageEnd => (coverageEnd, d.modified_date)
  | none => (d.modified_date, d.modified_date)

/-- Stable descending insertion used to model
`daily_snapshots.sort(key=..., reverse=True)`: `x` (which precedes the tail
in the original order) is placed before the first element whose key is
`<=` its own, so equal-key elements keep their original order. -/
def insertDescDump (x : DumpInfo) : List DumpInfo → List DumpInfo
  | [] => [x]
  | y :: ys =>
    if keyLe (dailySnapshotSortKey y) (dailySnapshotSortKey x) then x :: y :: ys
    else y :: insertDescDump x ys

/-- Stable descending sort by `_daily_snapshot_sort_key`. -/
def sortDescDumps : List DumpInfo → List DumpInfo
  | [] => []
  | x :: xs => insertDescDump x (sortDescDumps xs)

/-- The loop condition of `_pick_newer_coverage_dump`:
`coverage_end is None or coverage_end > current_max`. -/
def newerCoverage (m : PyDateTime) (d : DumpInfo) : Bool :=
  match dumpCoverageEnd d with
  | none => true
  | some ce => dtLt m ce

/-- The loop of `_pick_newer_coverage_dump`: first dump whose coverage end
is inestimable or strictly newer than the store's current max. -/
def findNewer (m : PyDateTime) : List DumpInfo → Option DumpInfo
  | [] => none
  | d :: rest =>
    match dumpCoverageEnd d with
    | none => some d
    | some ce => if dtLt m ce then some d else findNewer m rest

/-- `DumpManager._pick_newer_coverage_dump`. -/
def pickNewerCoverageDump (dumps : List DumpInfo) (currentMax : Option PyDateTime) :
    Option DumpInfo :=
  match dumps, currentMax with
  | [], _ => none
  | d :: _, none => some d
  | d :: rest, some m => findNewer m (d :: rest)

/-- The filter step of `get_recommended_dumps`: daily snapshots not yet in
the import metadata.  `imported` models `self.db.get_imported_dumps()`. -/
def dailyCandidates (imported : List String) (available : List DumpInfo) :
    List DumpInfo :=
  available.filter (fun d => d.dump_type == "daily" && !(imported.contains d.name))

/-- `DumpManager.get_recommended_dumps`.  `currentMax` models
`_get_current_max_datetime()`. -/
def getRecommendedDumps (imported : List String) (currentMax : Option PyDateTime)
    (available : List DumpInfo) (maxDumps : Nat) : List DumpInfo :=
  match pickNewerCoverageDump (sortDescDumps (dailyCandidates imported available))
      currentMax with
  | some c => [c].take (max 1 maxDumps)
  | none => []

/-! ## Record decoder: block-copy syntax -/

/-- Python `str.split(sep)` for a one-character separator: splits at every
occurrence, keeping empty pieces. -/
def splitOnChar (sep : Char) : List Char → List (List Char)
  | [] => [[]]
  | c :: rest =>
    let r := splitOnChar sep rest
    if c = sep then [] :: r
    else
      match r with
      | [] => [[c]]
      | h :: t => (c :: h) :: t

/-- Python `str.strip(chars)`: drop the given characters from both ends. -/
def pyStripCharSet (chars : List Char) (l : List Char) : List Char :=
  ((l.dropWhile (fun c => chars.contains c)).reverse.dropWhile
    (fun c => chars.contains c)).reverse

/-- `LOCATION_MAP` (dump_manager.py). -/
def locationMap (locId : Int) : Option String :=
  if locId = 7 then some "Black Market"
  else if locId = 1002 then some "Caerleon"
  else if locId = 2004 then some "Bridgewatch"
  else if locId = 3003 then some "Lymhurst"
  else if locId = 3005 then some "Fort Sterling"
  else if locId = 3008 then some "Martlock"
  else if locId = 3345 then some "Brecilien"
  else if locId = 4002 then some "Thetford"
  else if locId = 5003 then some "Fort Sterling"
  else none

/-- `LOCATION_MAP.get(location_id, str(location_id)) if location_id else
"Unknown"`: a falsy id (`None` or `0`) yields `"Unknown"`, an unknown id
passes through as its decimal string. -/
def locationFromId (locId : Option Int) : String :=
  match locId with
  | none => "Unknown"
  | some i => if i = 0 then "Unknown" else (locationMap i).getD (toString i)

/-- `DumpManager._parse_int`: strip, `"NULL"` (case-insensitive) and
unparsable values map to `None`. -/
def parseIntSql (value : String) : Option Int :=
  let v := pyStrip value
  if pyUpper v = "NULL" then none else pyInt v

/-- `get_field(...) or "NULL"`: Python `or` replaces a falsy (absent or
empty) field with the string `"NULL"`. -/
def orNullStr (o : Option String) : String :=
  match o with
  | some s => if s.isEmpty then "NULL" else s
  | none => "NULL"

/-- `quality or 1`: a falsy quality (`None` or `0`) defaults to 1. -/
def qualityOr1 (q : Option Int) : Int :=
  match q with
  | none => 1
  | some v => if v = 0 then 1 else v

/-- `DumpManager._parse_copy_columns`. -/
def parseCopyColumns (columnsStr : String) : List String :=
  ((splitOnChar ',' columnsStr.data).map
    (fun col => pyStripCharSet ['"'] (pyStripL col))).filterMap
    (fun cleaned => if cleaned.isEmpty then none else some ⟨cleaned⟩)

/-- The `{col: idx for idx, col in enumerate(columns)}` dict as an
association list of `(name, index)` pairs in enumeration order. -/
def buildColumnMap (columns : List String) : List (String × Nat) :=
  columns.enum.map (fun p => (p.2, p.1))

/-- Python dict lookup on the association list: a later binding of the same
name overwrites an earlier one. -/
def dictGet (m : List (String × Nat)) (k : String) : Option Nat :=
  match m with
  | [] => none
  | (k2, v) :: rest =>
    match dictGet rest k with
    | some r => some r
    | none => if k2 = k then some v else none

/-- The `get_field` closure of `_record_from_copy_fields`: first name with a
mapped in-range index wins, and its field value (possibly null) is
returned. -/
def getField (columnMap : List (String × Nat)) (fields : List (Option String)) :
    List String → Option String
  | [] => none
  | n :: rest =>
    match dictGet columnMap n with
    | some idx =>
      if idx < fields.length then fields.getD idx none
      else getField columnMap fields rest
    | none => getField columnMap fields rest

/-- The unescaping loop of `_unescape_copy_value`: `\t`, `\n`, `\r`, `\\`
become the escaped character, any other escaped character stands for
itself, and a trailing lone backslash is kept. -/
def unescapeCopyChars : List Char → List Char
  | '\\' :: nxt :: rest =>
    (if nxt = 't' then '\t'
     else if nxt = 'n' then '\n'
     else if nxt = 'r' then '\r'
     else if nxt = '\\' then '\\'
     else nxt) :: unescapeCopyChars rest
  | c :: rest => c :: unescapeCopyChars rest
  | [] => []

/-- `DumpManager._unescape_copy_value`: the literal token `\N` is null. -/
def unescapeCopyValue (v : List Char) : Option String :=
  if v = ['\\', 'N'] then none else some ⟨unescapeCopyChars v⟩

/-- `DumpManager._split_copy_line`. -/
def splitCopyLine (line : String) : List (Option String) :=
  (splitOnChar '\t' line.data).map unescapeCopyValue

/-- `DumpManager._record_from_copy_fields`. -/
def recordFromCopyFields (fields : List (Option String))
    (columnMap : List (String × Nat)) : Option MarketRecord :=
  let itemId := getField columnMap fields ["item_unique_name", "item_id"]
  let timestamp := getField columnMap fields ["timestamp"]
  if falsyStr itemId || falsyStr timestamp then none
  else
    let itemCount := parseIntSql (orNullStr (getField columnMap fields ["item_count"]))
    let silverAmount := parseIntSql (orNullStr (getField columnMap fields ["silver_amount"]))
    let locationId := parseIntSql (orNullStr (getField columnMap fields ["location"]))
    let quality := parseIntSql (orNullStr (getField columnMap fields ["quality_level", "quality"]))
    some
      { item_id := itemId,
        location := some (locationFromId locationId),
        quality := some (qualityOr1 quality),
        timestamp := timestamp,
        sell_price_min := silverAmount,
        sell_price_max := silverAmount,
        buy_price_min := none,
        buy_price_max := none,
        item_count := itemCount }

/-! ## Record decoder: value-tuple syntax -/

/-- The character loop of `DumpManager._split_sql_values`: split on commas
outside single- or double-quoted string literals; every piece is stripped,
and a non-empty trailing piece is appended at the end. -/
def splitSqlValuesAux (current : List Char) (values : List String)
    (inString : Bool) (stringChar : Option Char) : List Char → List String
  | [] => if current.isEmpty then values else values ++ [pyStrip ⟨current.reverse⟩]
  | c :: rest =>
    if (c = '\'' || c = '"') && !inString then
      splitSqlValuesAux (c :: current) values true (some c) rest
    else if inString && some c = stringChar then
      splitSqlValuesAux (c :: current) values false none rest
    else if c = ',' && !inString then
      splitSqlValuesAux [] (values ++ [pyStrip ⟨current.reverse⟩]) inString stringChar rest
    else
      splitSqlValuesAux (c :: current) values inString stringChar rest

/-- `DumpManager._split_sql_values`. -/
def splitSqlValues (l : List Char) : List String :=
  splitSqlValuesAux [] [] false none l

/-- Left-to-right non-overlapping `str.replace("''", "'")`. -/
def replaceDoubledQuote : List Char → List Char
  | '\'' :: '\'' :: rest => '\'' :: replaceDoubledQuote rest
  | c :: rest => c :: replaceDoubledQuote rest
  | [] => []

/-- Left-to-right non-overlapping `str.replace('\\"', '"')`. -/
def replaceEscapedQuote : List Char → List Char
  | '\\' :: '"' :: rest => '"' :: replaceEscapedQuote rest
  | c :: rest => c :: replaceEscapedQuote rest
  | [] => []

/-- `DumpManager._clean_sql_string`: strip, remove one layer of matching
outer quotes, and un-escape doubled/backslashed quote characters. -/
def cleanSqlString (value : String) : String :=
  let v := pyStripL value.data
  let unquoted :=
    if (v.head? = some '\'' && v.getLast? = some '\'') ||
        (v.head? = some '"' && v.getLast? = some '"') then
      (v.drop 1).dropLast
    else v
  ⟨replaceEscapedQuote (replaceDoubledQuote unquoted)⟩

/-- The `finditer` of `\(([^()]+)\)` in `_parse_value_tuples`: scan left to
right for a `(`, a nonempty run of non-parenthesis characters, and a `)`;
on a failed attempt the scan resumes one character further. -/
def findTuples : List Char → List (List Char)
  | [] => []
  | c :: rest =>
    if c = '(' then
      let body := rest.takeWhile (fun x => x ≠ '(' && x ≠ ')')
      match h : rest.drop body.length with
      | ')' :: tail =>
        if body.isEmpty then findTuples rest else body :: findTuples tail
      | _ => findTuples rest
    else findTuples rest
termination_by l => l.length
decreasing_by
  all_goals simp_wf
  all_goals
    first
    | (simp only [List.length_cons]; omega)
    | (have hlen := congrArg List.length h
       rw [List.length_drop] at hlen
       simp only [List.length_cons] at hlen ⊢
       omega)

/-- `DumpManager._parse_value_tuples`: decode each tuple of at least 7
positional values according to the fixed external schema
`(row_id, item_count, silver_amount, item_unique_name, location_id,
quality_level, timestamp, auction_type)`; rows with a falsy item id or
timestamp are dropped. -/
def parseValueTuples (line : String) : List MarketRecord :=
  let l := (pyRStripChars [',', ';'] line).data
  (findTuples l).filterMap (fun body =>
    let values := splitSqlValues body
    if 7 ≤ values.length then
      let itemCount := parseIntSql (values.getD 1 "")
      let silverAmount := parseIntSql (values.getD 2 "")
      let itemId := cleanSqlString (values.getD 3 "")
      let locationId := parseIntSql (values.getD 4 "")
      let quality := parseIntSql (values.getD 5 "")
      let timestamp := cleanSqlString (values.getD 6 "")
      if itemId.isEmpty || timestamp.isEmpty then none
      else
        some
          { item_id := some itemId,
            location := some (locationFromId locationId),
            quality := some (qualityOr1 quality),
            timestamp := some timestamp,
            sell_price_min := silverAmount,
            sell_price_max := silverAmount,
            buy_price_min := none,
            buy_price_max := none,
            item_count := itemCount }
    else none)

/-! ## SQL stream processing (`_stream_sql_to_csv` and
`_import_from_sql_stream`) -/

/-- Case-insensitive literal-prefix match: `pat` is given in uppercase; on
success the remainder of the input is returned. -/
def ciPrefixRest : List Char → List Char → Option (List Char)
  | [], l => some l
  | _ :: _, [] => none
  | p :: ps, c :: cs => if c.toUpper = p then ciPrefixRest ps cs else none

/-- The `copy_pattern` regex
`^COPY\s+(?P<table>[^\s]+)\s*\((?P<columns>[^)]+)\)\s+FROM\s+stdin;?$`
(case-insensitive), applied to an already-stripped line.  The table token
extends to the first whitespace or opening parenthesis (for a table name
without parentheses this is the regex's backtracked match). -/
def parseCopyHeader (stripped : String) : Option (String × String) :=
  match ciPrefixRest "COPY".data stripped.data with
  | none => none
  | some afterCopy =>
    match afterCopy with
    | [] => none
    | c1 :: rest1 =>
      if pyIsSpace c1 then
        let afterWs1 := rest1.dropWhile pyIsSpace
        let table := afterWs1.takeWhile (fun ch => !pyIsSpace ch && ch ≠ '(')
        if table.isEmpty then none
        else
          let afterWs2 := (afterWs1.drop table.length).dropWhile pyIsSpace
          match afterWs2 with
          | '(' :: afterParen =>
            let cols := afterParen.takeWhile (fun ch => ch ≠ ')')
            if cols.isEmpty then none
            else
              match afterParen.drop cols.length with
              | ')' :: afterCols =>
                match afterCols with
                | c2 :: rest2 =>
                  if pyIsSpace c2 then
                    match ciPrefixRest "FROM".data (rest2.dropWhile pyIsSpace) with
                    | some afterFrom =>
                      match afterFrom with
                      | c3 :: rest3 =>
                        if pyIsSpace c3 then
                          match ciPrefixRest "STDIN".data (rest3.dropWhile pyIsSpace) with
                          | some restEnd =>
                            if restEnd = [] || restEnd = [';'] then
                              some (⟨table⟩, ⟨cols⟩)
                            else none
                          | none => none
                        else none
                      | [] => none
                    | none => none
                  else none
                | [] => none
              | _ => none
          | _ => none
      else none

/-- `DumpManager._normalize_table_name`. -/
def normalizeTableName (tableName : String) : String :=
  let t := pyStripL tableName.data
  let afterDot := if t.contains '.' then (splitOnChar '.' t).getLastD [] else t
  ⟨pyStripCharSet ['"'] afterDot⟩

/-- The per-line scanner state of `_stream_sql_to_csv` (bulk-loading path):
matched records go straight to the streaming CSV writer and there is no
section tracking. -/
structure CsvStreamState where
  inCopy : Bool
  inInsert : Bool
  columnMap : List (String × Nat)
  writer : WriterState
deriving Repr, DecidableEq

/-- Initial scanner state over an open writer. -/
def initCsvStream : CsvStreamState :=
  { inCopy := false, inInsert := false, columnMap := [], writer := initWriter }

/-- One line of `_stream_sql_to_csv`. -/
def csvStreamLine (cutoff : Option String) (st : CsvStreamState)
    (rawLine : String) : CsvStreamState :=
  let line := pyRStripChars ['\n'] rawLine
  if st.inCopy then
    if line = "\\." then { st with inCopy := false }
    else
      match recordFromCopyFields (splitCopyLine line) st.columnMap with
      | some record => { st with writer := writeRecord cutoff st.writer record }
      | none => st
  else
    let stripped := pyStrip line
    if stripped.isEmpty || startsWithL ['-', '-'] stripped.data then st
    else
      match parseCopyHeader stripped with
      | some (table, columns) =>
        if normalizeTableName table = "market_history" then
          { st with
            inCopy := true,
            columnMap := buildColumnMap (parseCopyColumns columns) }
        else st
      | none =>
        if st.inInsert then
          let st2 :=
            if stripped.data.head? = some '(' then
              { st with writer := writeRecords cutoff st.writer (parseValueTuples stripped) }
            else st
          if stripped.data.getLast? = some ';' then { st2 with inInsert := false }
          else st2
        else
          let upperLine := pyUpper stripped
          if containsSub "INSERT INTO" upperLine &&
              containsSub "MARKET_HISTORY" upperLine then
            let st2 := { st with inInsert := true }
            let st3 :=
              if containsSub "VALUES" upperLine then
                match findSub "VALUES" (pyUpper line) with
                | some idx =>
                  let afterValues := pyStrip ⟨line.data.drop (idx + 6)⟩
                  if afterValues.isEmpty then st2
                  else
                    { st2 with writer :=
                        writeRecords cutoff st2.writer (parseValueTuples afterValues) }
                | none => st2
              else st2
            if stripped.data.getLast? = some ';' then { st3 with inInsert := false }
            else st3
          else st

/-- `_stream_sql_to_csv` over a whole stream of lines: the resulting writer
state. -/
def streamSqlToCsv (lines : List String) (cutoff : Option String) : WriterState :=
  (lines.foldl (csvStreamLine cutoff) initCsvStream).writer

/-- The scanner state of `_import_from_sql_stream` (legacy path): a batch
buffer flushed to `insert_records` at `batch_size`, date-range tracking over
raw timestamps, and the `found_section` flag behind the hard error. -/
structure SqlStreamState where
  inserted : Nat
  dateStart : Option String
  dateEnd : Option String
  batch : List MarketRecord
  foundSection : Bool
  inCopy : Bool
  inInsert : Bool
  columnMap : List (String × Nat)
deriving Repr, DecidableEq

/-- Initial legacy scanner state. -/
def initSqlStream : SqlStreamState :=
  { inserted := 0, dateStart := none, dateEnd := none, batch := [],
    foundSection := false, inCopy := false, inInsert := false, columnMap := [] }

/-- The per-record body shared by the three decode sites of
`_import_from_sql_stream`: cutoff filter, raw-timestamp date tracking,
batching; a full batch is flushed through `insert_records`, whose success
path reports the batch length. -/
def legacyAddRecord (cutoff : Option String) (batchSize : Nat)
    (st : SqlStreamState) (record : MarketRecord) : SqlStreamState :=
  let normalizedTs := normalizeTimestampForCompare record.timestamp
  let skip : Bool :=
    match cutoff, normalizedTs with
    | some c, some n => strLe n c
    | _, _ => false
  if skip then st
  else
    let st2 :=
      match record.timestamp with
      | some ts =>
        if ts.isEmpty then st
        else
          let dateValue := ts.take 10
          { st with
            dateStart :=
              (match st.dateStart with
               | none => some dateValue
               | some s => if strLt dateValue s then some dateValue else some s),
            dateEnd :=
              (match st.dateEnd with
               | none => some dateValue
               | some e => if strLt e dateValue then some dateValue else some e) }
      | none => st
    let batch2 := st2.batch ++ [record]
    if batchSize ≤ batch2.length then
      { st2 with inserted := st2.inserted + batch2.length, batch := [] }
    else
      { st2 with batch := batch2 }

/-- One line of `_import_from_sql_stream`. -/
def legacyStreamLine (cutoff : Option String) (batchSize : Nat)
    (st : SqlStreamState) (rawLine : String) : SqlStreamState :=
  let line := pyRStripChars ['\n'] rawLine
  if st.inCopy then
    if line = "\\." then { st with inCopy := false }
    else
      match recordFromCopyFields (splitCopyLine line) st.columnMap with
      | some record => legacyAddRecord cutoff batchSize st record
      | none => st
  else
    let stripped := pyStrip line
    if stripped.isEmpty || startsWithL ['-', '-'] stripped.data then st
    else
      match parseCopyHeader stripped with
      | some (table, columns) =>
        if normalizeTableName table = "market_history" then
          { st with
            foundSection := true,
            inCopy := true,
            columnMap := buildColumnMap (parseCopyColumns columns) }
        else st
      | none =>
        if st.inInsert then
          let st2 :=
            if stripped.data.head? = some '(' then
              (parseValueTuples stripped).foldl (legacyAddRecord cutoff batchSize) st
            else st
          if stripped.data.getLast? = some ';' then { st2 with inInsert := false }
          else st2
        else
          let upperLine := pyUpper stripped
          if containsSub "INSERT INTO" upperLine &&
              containsSub "MARKET_HISTORY" upperLine then
            let st2 := { st with foundSection := true, inInsert := true }
            let st3 :=
              if containsSub "VALUES" upperLine then
                match findSub "VALUES" (pyUpper line) with
                | some idx =>
                  let afterValues := pyStrip ⟨line.data.drop (idx + 6)⟩
                  if afterValues.isEmpty then st2
                  else
                    (parseValueTuples afterValues).foldl
                      (legacyAddRecord cutoff batchSize) st2
                | none => st2
              else st2
            if stripped.data.getLast? = some ';' then { st3 with inInsert := false }
            else st3
          else st

/-- `_import_from_sql_stream`: fold the scanner over the stream, flush the
final partial batch, and raise the hard error when no `market_history`
section was recognized. -/
def importFromSqlStream (lines : List String) (sourceLabel : String)
    (batchSize : Nat) (minTsExclusive : Option String) :
    Except String (Nat × Option String × Option String) :=
  let cutoff := normalizeTimestampForCompare minTsExclusive
  let st := lines.foldl (legacyStreamLine cutoff batchSize) initSqlStream
  let final :=
    if st.batch.isEmpty then st
    else { st with inserted := st.inserted + st.batch.length, batch := [] }
  if final.foundSection = false then
    Except.error ("No market_history data found in " ++ sourceLabel)
  else
    Except.ok (final.inserted, final.dateStart, final.dateEnd)

/-- A staging record written to the CSV file, re-read by `read_csv` as a
typed table row.  The writer guarantees `item_id` and `timestamp`; the
decoders always set `location` and `quality`. -/
def csvRowOfRecord (r : MarketRecord) : Option HistoryRow :=
  match r.item_id, r.location, r.quality, r.timestamp with
  | some i, some l, some q, some t =>
    some
      { item_id := i, location := l, quality := q, timestamp := t,
        sell_price_min := r.sell_price_min, sell_price_max := r.sell_price_max,
        buy_price_min := r.buy_price_min, buy_price_max := r.buy_price_max,
        item_count := r.item_count }
  | _, _, _, _ => none

/-- `_import_with_bulk_loading`: stream to CSV through the cutoff-filtering
writer; zero parsed records short-circuit to a zero import without touching
the store, otherwise the CSV is bulk-upserted. -/
def importWithBulkLoading (table : List HistoryRow) (lines : List String)
    (minTsExclusive : Option String) :
    List HistoryRow × Int × Option String × Option String :=
  let w := streamSqlToCsv lines (normalizeTimestampForCompare minTsExclusive)
  if w.count = 0 then (table, 0, none, none)
  else
    let loaded := bulkInsertFromCsv table (w.rows.filterMap csvRowOfRecord)
    (loaded.1, loaded.2, w.date_start, w.date_end)

/-- The import count returned by `import_dump` on the bulk-loading path:
this path never raises the no-matching-section error. -/
def importDumpBulkResult (table : List HistoryRow) (lines : List String)
    (minTsExclusive : Option String) : Except String Int :=
  Except.ok (importWithBulkLoading table lines minTsExclusive).2.1

/-- The import count returned by `import_dump` on the legacy path. -/
def importDumpLegacyResult (lines : List String) (sourceLabel : String)
    (minTsExclusive : Option String) : Except String Int :=
  match importFromSqlStream lines sourceLabel 10000 minTsExclusive with
  | Except.error e => Except.error e
  | Except.ok (n, _, _) => Except.ok (n : Int)

/-- The outcome of one dump in `_process_dumps`: whether the dump counts
as imported, the recorded per-dump error, and the record count written to
the import metadata (`record_import` is called with the count by
`import_dump` when positive, and with 0 by `_process_dumps` otherwise). -/
structure ImportOutcome where
  imported : Bool
  errorMsg : Option String
  metadataRecordCount : Option Int
deriving Repr, DecidableEq

/-- The per-dump try block of `_process_dumps` applied to an import
result. -/
def processOneDump (result : Except String Int) : ImportOutcome :=
  match result with
  | Except.error e => { imported := false, errorMsg := some e, metadataRecordCount := none }
  | Except.ok n => { imported := true, errorMsg := none, metadataRecordCount := some n }

/-! ## Time-bucketed aggregation (`get_aggregated_history`) -/

/-- An exact (unreduced) fraction, modelling the SQL DOUBLE intermediate
values of `get_aggregated_history` as exact rationals.  The denominator is
nonzero by construction at every use. -/
structure Frac where
  num : Int
  den : Int
deriving Repr, DecidableEq

/-- Exact addition of fractions. -/
def fracAdd (a b : Frac) : Frac :=
  { num := a.num * b.den + b.num * a.den, den := a.den * b.den }

/-- Division of a fraction by an integer. -/
def fracDivInt (a : Frac) (n : Int) : Frac :=
  { num := a.num, den := a.den * n }

/-- Sum of a list of fractions. -/
def fracSum (xs : List Frac) : Frac :=
  xs.foldl fracAdd { num := 0, den := 1 }

/-- `COALESCE(NULLIF(item_count, 0), 1)`: a null or zero item count divides
by 1. -/
def coalesceNullifItemCount (ic : Option Int) : Int :=
  match ic with
  | none => 1
  | some n => if n = 0 then 1 else n

/-- The `per_item_expr` of `get_aggregated_history`: a null per-stack price
stays null, otherwise it is divided by the item-count coalesce. -/
def perItemPrice (price : Option Int) (ic : Option Int) : Option Frac :=
  match price with
  | none => none
  | some p => some { num := p, den := coalesceNullifItemCount ic }

/-- DuckDB `ROUND` on DOUBLE: round half away from zero.  For a fraction
with positive denominator `d`, `floor(n/d + 1/2) = (2n + d) fdiv (2d)`; a
negative value is rounded as the negated rounding of its negation. -/
def roundHalfAwayFromZero (q : Frac) : Int :=
  let n := if q.den < 0 then -q.num else q.num
  let d := if q.den < 0 then -q.den else q.den
  if n < 0 then -(Int.fdiv (-(2 * n) + d) (2 * d))
  else Int.fdiv (2 * n + d) (2 * d)

/-- `CAST(ROUND(AVG(expr)) AS INTEGER)`: SQL `AVG` ignores nulls and is
null on an empty set. -/
def avgRoundInt (xs : List Frac) : Option Int :=
  match xs with
  | [] => none
  | _ => some (roundHalfAwayFromZero (fracDivInt (fracSum xs) (xs.length : Int)))

/-- `SUM(item_count)`: null when every input is null, else the sum of the
non-null inputs. -/
def sumItemCounts (xs : List (Option Int)) : Option Int :=
  match xs.filterMap (fun x => x) with
  | [] => none
  | vals => some vals.sum

/-- The `WHERE` clause of `get_aggregated_history`.  Timestamps are stored
canonically as `YYYY-MM-DD HH:MM:SS`, on which the SQL `TIMESTAMP`
comparison coincides with the lexicographic string comparison.  A falsy
(absent or empty) `locations` adds no condition, matching `if locations:`. -/
def histQueryFilter (itemId : String) (locations : Option (List String))
    (quality : Option Int) (startDate : Option String) (endDate : Option String)
    (r : HistoryRow) : Bool :=
  r.item_id == itemId &&
  (match locations with
   | some locs => if locs.isEmpty then true else locs.contains r.location
   | none => true) &&
  (match quality with
   | some q => r.quality == q
   | none => true) &&
  (match startDate with
   | some sd => strLe sd r.timestamp
   | none => true) &&
  (match endDate with
   | some ed => strLe r.timestamp ed
   | none => true)

/-- The daily `GROUP BY` key `(DATE_TRUNC('day', timestamp), location,
quality)`.  `DATE_TRUNC('day', ·)` on a canonical timestamp string is its
10-character date prefix. -/
def aggKey (r : HistoryRow) : String × String × Int :=
  (r.timestamp.take 10, r.location, r.quality)

/-- `ORDER BY period DESC, location, quality` on group keys. -/
def aggKeyLe (a b : String × String × Int) : Bool :=
  if strLt b.1 a.1 then true
  else if strLt a.1 b.1 then false
  else if strLt a.2.1 b.2.1 then true
  else if strLt b.2.1 a.2.1 then false
  else decide (a.2.2 ≤ b.2.2)

/-- Insertion step for ordering the group keys. -/
def insertAggKey (x : String × String × Int) :
    List (String × String × Int) → List (String × String × Int)
  | [] => [x]
  | y :: ys => if aggKeyLe x y then x :: y :: ys else y :: insertAggKey x ys

/-- Sort of the distinct group keys in result order. -/
def sortAggKeys : List (String × String × Int) → List (String × String × Int)
  | [] => []
  | x :: xs => insertAggKey x (sortAggKeys xs)

/-- One result row of `get_aggregated_history`. -/
structure AggRow where
  period : String
  location : String
  quality : Int
  avg_sell_min : Option Int
  avg_sell_max : Option Int
  avg_buy_min : Option Int
  avg_buy_max : Option Int
  total_volume : Option Int
  data_points : Nat
deriving Repr, DecidableEq

/-- `HistoryDatabase.get_aggregated_history` at daily granularity
(`DATE_TRUNC('day', ·)`), including its `LIMIT 1000`.  `period` is reported
as the bucket's date string. -/
def getAggregatedHistoryDaily (table : List HistoryRow) (itemId : String)
    (locations : Option (List String)) (quality : Option Int)
    (startDate : Option String) (endDate : Option String) : List AggRow :=
  let rows := table.filter (histQueryFilter itemId locations quality startDate endDate)
  let sortedKeys := sortAggKeys (rows.map aggKey).eraseDups
  (sortedKeys.map (fun k =>
    let grp := rows.filter (fun r => aggKey r == k)
    { period := k.1, location := k.2.1, quality := k.2.2,
      avg_sell_min := avgRoundInt
        (grp.filterMap (fun r => perItemPrice r.sell_price_min r.item_count)),
      avg_sell_max := avgRoundInt
        (grp.filterMap (fun r => perItemPrice r.sell_price_max r.item_count)),
      avg_buy_min := avgRoundInt
        (grp.filterMap (fun r => perItemPrice r.buy_price_min r.item_count)),
      avg_buy_max := avgRoundInt
        (grp.filterMap (fun r => perItemPrice r.buy_price_max r.item_count)),
      total_volume := sumItemCounts (grp.map (fun r => r.item_count)),
      data_points := grp.length })).take 1000

/-! ## Lemmas about the timestamp normalizer -/

theorem shapeOf_append {p1 p2 : List (Char → Bool)} {l1 l2 : List Char}
    (h1 : shapeOf p1 l1 = true) (h2 : shapeOf p2 l2 = true) :
    shapeOf (p1 ++ p2) (l1 ++ l2) = true := by
  induction p1 generalizing l1 with
  | nil => cases l1 with
    | nil => simpa using h2
    | cons c cs => simp [shapeOf] at h1
  | cons p ps ih =>
    cases l1 with
    | nil => simp [shapeOf] at h1
    | cons c cs =>
      simp only [shapeOf, Bool.and_eq_true] at h1
      simpa [shapeOf, h1.1] using ih h1.2

theorem searchTS_shape {l : List Char} {m : List Char}
    (h : searchTS l = some m) : tsShape m = true := by
  induction l with
  | nil => simp [searchTS] at h
  | cons c rest ih =>
    rw [searchTS] at h
    by_cases hs : tsShape ((c :: rest).take 19) = true
    · simp only [hs, if_true] at h
      cases h
      exact hs
    · simp only [hs] at h
      simp only [Bool.not_eq_true] at hs
      rw [if_neg (by simp [hs])] at h
      exact ih h

theorem tsShape_of_dateShape {l : List Char} (h : dateShape l = true) :
    tsShape (l ++ (" 00:00:00" : String).data) = true := by
  have h2 : shapeOf timePat (" 00:00:00" : String).data = true := by decide
  exact shapeOf_append h h2

/-- C9: the timestamp normalizer is a total pure function: on every input
string it returns either a canonical `YYYY-MM-DD HH:MM:SS` string or `none`,
never any other shape.  (Totality holds by construction: it is a Lean
function.) -/
theorem C9_normalize_timestamp_total_and_canonical :
    ∀ s : String,
      normalizeTimestampForCompare (some s) = none ∨
      ∃ t : String, normalizeTimestampForCompare (some s) = some t ∧
        tsShape t.data = true := by
  intro s
  unfold normalizeTimestampForCompare
  cases hsearch : searchTS (pyStrip s).data with
  | some m =>
    right
    exact ⟨⟨m⟩, by simp [hsearch], searchTS_shape hsearch⟩
  | none =>
    by_cases hd : dateShape (pyStrip s).data = true
    · right
      refine ⟨pyStrip s ++ " 00:00:00", by simp [hsearch, hd], ?_⟩
      have := tsShape_of_dateShape hd
      simpa [String.data] using this
    · left
      simp only [Bool.not_eq_true] at hd
      simp [hsearch, hd]

/-- C5: with cutoff `"2026-01-15 10:00:00"`, a record timestamped exactly at
the cutoff is dropped and counted as skipped-existing; a record one second
later is kept and appended; records with no item id or no timestamp are
dropped silently without incrementing either count. -/
theorem C5_cutoff_filtering :
    (writeRecord (mkWriterCutoff (some "2026-01-15 10:00:00")) initWriter
      { item_id := some "T4_BAG", location := some "Caerleon", quality := some 1,
        timestamp := some "2026-01-15 10:00:00",
        sell_price_min := some 2500, sell_price_max := some 2500,
        buy_price_min := none, buy_price_max := none, item_count := some 1 } =
      { initWriter with skipped_existing := 1 }) ∧
    (writeRecord (mkWriterCutoff (some "2026-01-15 10:00:00")) initWriter
      { item_id := some "T4_BAG", location := some "Caerleon", quality := some 1,
        timestamp := some "2026-01-15 10:00:01",
        sell_price_min := some 2500, sell_price_max := some 2500,
        buy_price_min := none, buy_price_max := none, item_count := some 1 } =
      { rows := [{ item_id := some "T4_BAG", location := some "Caerleon",
                   quality := some 1, timestamp := some "2026-01-15 10:00:01",
                   sell_price_min := some 2500, sell_price_max := some 2500,
                   buy_price_min := none, buy_price_max := none,
                   item_count := some 1 }],
        count := 1, skipped_existing := 0,
        date_start := some "2026-01-15", date_end := some "2026-01-15" }) ∧
    (∀ (c : Option String) (st : WriterState) (r : MarketRecord),
      writeRecord c st { r with item_id := none } = st) ∧
    (∀ (c : Option String) (st : WriterState) (r : MarketRecord),
      writeRecord c st { r with timestamp := none } = st) := by
  refine ⟨by decide, by decide, ?_, ?_⟩
  · intro c st r
    simp [writeRecord, falsyStr]
  · intro c st r
    simp [writeRecord, falsyStr]

/-- C7: starting a run while one is active returns `started = false` without
mutating any field of the tracker state; clearing while `running` raises and
leaves the state unchanged; clearing from a terminal state (`completed` or
`failed`) resets the progress to idle. -/
theorem C7_single_flight_and_clear :
    ∀ (s : ManagerState) (runId : String) (maxDumps : Nat) (now : String),
      (s.updateLockHeld = true →
        startBackgroundUpdate s runId maxDumps now = (s, false)) ∧
      (s.progress.status = "running" →
        clearUpdateProgress s now =
          .error "Cannot clear update progress while an update is running") ∧
      (s.progress.status = "completed" ∨ s.progress.status = "failed" →
        ∃ p : ProgressState,
          clearUpdateProgress s now = .ok ({ s with progress := p }, p) ∧
          p.status = "idle" ∧ p.run_id = none) := by
  intro s runId maxDumps now
  refine ⟨?_, ?_, ?_⟩
  · intro h
    simp [startBackgroundUpdate, h]
  · intro h
    simp [clearUpdateProgress, h]
  · intro h
    have hne : ¬ s.progress.status = "running" := by
      rcases h with h | h <;> simp [h]
    refine ⟨{ emptyProgressState with updated_at := some now }, ?_, rfl, rfl⟩
    simp [clearUpdateProgress, hne]

/-- Witness for C7: instantiates the theorem at a concrete running state and
a concrete completed state, discharging the hypotheses. -/
theorem C7_single_flight_and_clear_witness :
    (startBackgroundUpdate
        ⟨true, { emptyProgressState with status := "running" }⟩ "r2" 1 "t1" =
      (⟨true, { emptyProgressState with status := "running" }⟩, false)) ∧
    (clearUpdateProgress
        ⟨true, { emptyProgressState with status := "running" }⟩ "t1" =
      .error "Cannot clear update progress while an update is running") ∧
    (∃ p : ProgressState,
      clearUpdateProgress
          ⟨false, { emptyProgressState with status := "completed" }⟩ "t1" =
        .ok (⟨false, p⟩, p) ∧ p.status = "idle" ∧ p.run_id = none) := by
  refine ⟨?_, ?_, ?_⟩
  · exact (C7_single_flight_and_clear
      ⟨true, { emptyProgressState with status := "running" }⟩ "r2" 1 "t1").1 rfl
  · exact (C7_single_flight_and_clear
      ⟨true, { emptyProgressState with status := "running" }⟩ "r2" 1 "t1").2.1 rfl
  · exact (C7_single_flight_and_clear
      ⟨false, { emptyProgressState with status := "completed" }⟩ "r2" 1 "t1").2.2
      (Or.inl rfl)

/-! ## Lemmas about the store upsert paths -/

theorem rowKey_coalesceUpdate (t r : HistoryRow) :
    rowKey (coalesceUpdate t r) = rowKey t := rfl

theorem coalesce_ne_none {a b : Option Int} (h : b ≠ none) :
    coalesce a b ≠ none := by
  cases a <;> simp [coalesce, h]

theorem upsertRow_preserve (f : HistoryRow → Option Int)
    (hf : ∀ t r, f (coalesceUpdate t r) = coalesce (f r) (f t))
    (table : List HistoryRow) (r : HistoryRow) (k : String × String × Int × String)
    (t : HistoryRow) (ht : t ∈ table) (hk : rowKey t = k) (hnn : f t ≠ none) :
    ∃ u ∈ upsertRow table r, rowKey u = k ∧ f u ≠ none := by
  unfold upsertRow
  by_cases hany : table.any (fun x => rowKey x == rowKey r) = true
  · rw [if_pos hany]
    refine ⟨if rowKey t == rowKey r then coalesceUpdate t r else t,
      List.mem_map_of_mem _ ht, ?_⟩
    by_cases hkr : rowKey t == rowKey r
    · rw [if_pos hkr]
      refine ⟨by rw [rowKey_coalesceUpdate]; exact hk, ?_⟩
      rw [hf]
      exact coalesce_ne_none hnn
    · rw [if_neg hkr]
      exact ⟨hk, hnn⟩
  · rw [if_neg hany]
    exact ⟨t, List.mem_append_left _ ht, hk, hnn⟩

theorem foldl_upsert_preserve (f : HistoryRow → Option Int)
    (hf : ∀ t r, f (coalesceUpdate t r) = coalesce (f r) (f t))
    (csvRows : List HistoryRow) :
    ∀ (table : List HistoryRow) (k : String × String × Int × String),
      (∃ t ∈ table, rowKey t = k ∧ f t ≠ none) →
      ∃ u ∈ csvRows.foldl upsertRow table, rowKey u = k ∧ f u ≠ none := by
  induction csvRows with
  | nil => intro table k h; simpa using h
  | cons r rest ih =>
    intro table k h
    obtain ⟨t, ht, hk, hnn⟩ := h
    exact ih (upsertRow table r) k (upsertRow_preserve f hf table r k t ht hk hnn)

theorem upsertRow_key_preserve (table : List HistoryRow) (r : HistoryRow)
    (k : String × String × Int × String) (t : HistoryRow)
    (ht : t ∈ table) (hk : rowKey t = k) :
    ∃ u ∈ upsertRow table r, rowKey u = k := by
  unfold upsertRow
  by_cases hany : table.any (fun x => rowKey x == rowKey r) = true
  · rw [if_pos hany]
    refine ⟨if rowKey t == rowKey r then coalesceUpdate t r else t,
      List.mem_map_of_mem _ ht, ?_⟩
    by_cases hkr : rowKey t == rowKey r
    · rw [if_pos hkr, rowKey_coalesceUpdate]; exact hk
    · rw [if_neg hkr]; exact hk
  · rw [if_neg hany]
    exact ⟨t, List.mem_append_left _ ht, hk⟩

theorem upsertRow_length_of_dup (table : List HistoryRow) (r : HistoryRow)
    (h : ∃ t ∈ table, rowKey t = rowKey r) :
    (upsertRow table r).length = table.length := by
  unfold upsertRow
  have hany : table.any (fun x => rowKey x == rowKey r) = true := by
    obtain ⟨t, ht, hk⟩ := h
    exact List.any_eq_true.mpr ⟨t, ht, by simp [hk]⟩
  rw [if_pos hany]
  exact List.length_map _ _

theorem foldl_upsert_length (csvRows : List HistoryRow) :
    ∀ table : List HistoryRow,
      (∀ r ∈ csvRows, ∃ t ∈ table, rowKey t = rowKey r) →
      (csvRows.foldl upsertRow table).length = table.length := by
  induction csvRows with
  | nil => intro table _; rfl
  | cons r rest ih =>
    intro table h
    have hr : ∃ t ∈ table, rowKey t = rowKey r := h r (List.mem_cons_self r rest)
    have hrest : ∀ q ∈ rest, ∃ t ∈ upsertRow table r, rowKey t = rowKey q := by
      intro q hq
      obtain ⟨t, ht, hk⟩ := h q (List.mem_cons_of_mem r hq)
      exact upsertRow_key_preserve table r (rowKey q) t ht hk
    calc (List.foldl upsertRow (upsertRow table r) rest).length
        = (upsertRow table r).length := ih (upsertRow table r) hrest
      _ = table.length := upsertRow_length_of_dup table r hr

/-- C1, counterexample: on the `insert_records` path the conflict action is
`INSERT OR REPLACE`, which replaces the whole row: a stored non-null
`sell_price_min` of 2500 is overwritten with null by an incoming record
whose `sell_price_min` is null, contradicting the claim that both upsert
paths coalesce non-null fields. -/
theorem C1_counterexample_insert_records_nulls_price :
    insertRecords
      [{ item_id := "T4_BAG", location := "Caerleon", quality := 1,
         timestamp := "2026-01-15 10:00:00",
         sell_price_min := some 2500, sell_price_max := some 2500,
         buy_price_min := none, buy_price_max := none, item_count := some 10 }]
      [{ item_id := "T4_BAG", location := "Caerleon", quality := 1,
         timestamp := "2026-01-15 10:00:00",
         sell_price_min := none, sell_price_max := none,
         buy_price_min := none, buy_price_max := none, item_count := some 3 }] =
    ([{ item_id := "T4_BAG", location := "Caerleon", quality := 1,
        timestamp := "2026-01-15 10:00:00",
        sell_price_min := none, sell_price_max := none,
        buy_price_min := none, buy_price_max := none, item_count := some 3 }], 1) := by
  decide

/-- C1 (amended): the coalesce-non-null-on-conflict rule holds on the bulk
CSV load path: through any bulk load, a row key whose stored value in any of
the four price fields is non-null still has a non-null value in that field
afterwards.  The `insert_records` path instead replaces the whole
conflicting row, so there incoming nulls do overwrite stored prices. -/
theorem C1_bulk_path_never_overwrites_nonnull_with_null :
    ∀ (table csvRows : List HistoryRow) (k : String × String × Int × String),
      ((∃ t ∈ table, rowKey t = k ∧ t.sell_price_min ≠ none) →
        ∃ u ∈ (bulkInsertFromCsv table csvRows).1,
          rowKey u = k ∧ u.sell_price_min ≠ none) ∧
      ((∃ t ∈ table, rowKey t = k ∧ t.sell_price_max ≠ none) →
        ∃ u ∈ (bulkInsertFromCsv table csvRows).1,
          rowKey u = k ∧ u.sell_price_max ≠ none) ∧
      ((∃ t ∈ table, rowKey t = k ∧ t.buy_price_min ≠ none) →
        ∃ u ∈ (bulkInsertFromCsv table csvRows).1,
          rowKey u = k ∧ u.buy_price_min ≠ none) ∧
      ((∃ t ∈ table, rowKey t = k ∧ t.buy_price_max ≠ none) →
        ∃ u ∈ (bulkInsertFromCsv table csvRows).1,
          rowKey u = k ∧ u.buy_price_max ≠ none) := by
  intro table csvRows k
  refine ⟨?_, ?_, ?_, ?_⟩
  · exact foldl_upsert_preserve (fun x => x.sell_price_min)
      (fun _ _ => rfl) csvRows table k
  · exact foldl_upsert_preserve (fun x => x.sell_price_max)
      (fun _ _ => rfl) csvRows table k
  · exact foldl_upsert_preserve (fun x => x.buy_price_min)
      (fun _ _ => rfl) csvRows table k
  · exact foldl_upsert_preserve (fun x => x.buy_price_max)
      (fun _ _ => rfl) csvRows table k

/-- Witness for the amended C1: a concrete re-import whose incoming row has
a null `sell_price_min` does not null out the stored 2500 on the bulk
path. -/
theorem C1_bulk_path_witness :
    ∃ u ∈ (bulkInsertFromCsv
      [{ item_id := "T4_BAG", location := "Caerleon", quality := 1,
         timestamp := "2026-01-15 10:00:00",
         sell_price_min := some 2500, sell_price_max := some 2500,
         buy_price_min := none, buy_price_max := none, item_count := some 10 }]
      [{ item_id := "T4_BAG", location := "Caerleon", quality := 1,
         timestamp := "2026-01-15 10:00:00",
         sell_price_min := none, sell_price_max := none,
         buy_price_min := none, buy_price_max := none, item_count := some 3 }]).1,
      rowKey u = ("T4_BAG", "Caerleon", (1 : Int), "2026-01-15 10:00:00") ∧
      u.sell_price_min ≠ none :=
  (C1_bulk_path_never_overwrites_nonnull_with_null
    [{ item_id := "T4_BAG", location := "Caerleon", quality := 1,
       timestamp := "2026-01-15 10:00:00",
       sell_price_min := some 2500, sell_price_max := some 2500,
       buy_price_min := none, buy_price_max := none, item_count := some 10 }]
    [{ item_id := "T4_BAG", location := "Caerleon", quality := 1,
       timestamp := "2026-01-15 10:00:00",
       sell_price_min := none, sell_price_max := none,
       buy_price_min := none, buy_price_max := none, item_count := some 3 }]
    ("T4_BAG", "Caerleon", (1 : Int), "2026-01-15 10:00:00")).1
    ⟨_, List.mem_singleton.mpr rfl, by decide, by decide⟩

/-- C10: `bulk_insert_from_csv` returns exactly the table row count after
the load minus the count before it, and a batch all of whose keys already
exist returns 0 even though the conflict branch coalesced fields. -/
theorem C10_bulk_inserted_count_is_net_new_keys :
    ∀ (table csvRows : List HistoryRow),
      (bulkInsertFromCsv table csvRows).2 =
        ((bulkInsertFromCsv table csvRows).1.length : Int) -
          (table.length : Int) ∧
      ((∀ r ∈ csvRows, ∃ t ∈ table, rowKey t = rowKey r) →
        (bulkInsertFromCsv table csvRows).2 = 0) := by
  intro table csvRows
  constructor
  · rfl
  · intro h
    show ((csvRows.foldl upsertRow table).length : Int) - (table.length : Int) = 0
    rw [foldl_upsert_length csvRows table h]
    exact sub_self _

/-- Witness for C10: a fully overlapping one-row batch that does update a
price field (null → 7000) still reports 0 inserted. -/
theorem C10_witness :
    (bulkInsertFromCsv
      [{ item_id := "T4_BAG", location := "Caerleon", quality := 1,
         timestamp := "2026-01-15 10:00:00",
         sell_price_min := some 2500, sell_price_max := some 2500,
         buy_price_min := none, buy_price_max := none, item_count := some 10 }]
      [{ item_id := "T4_BAG", location := "Caerleon", quality := 1,
         timestamp := "2026-01-15 10:00:00",
         sell_price_min := some 2500, sell_price_max := some 2500,
         buy_price_min := some 7000, buy_price_max := none,
         item_count := some 10 }]).2 = 0 ∧
    (bulkInsertFromCsv
      [{ item_id := "T4_BAG", location := "Caerleon", quality := 1,
         timestamp := "2026-01-15 10:00:00",
         sell_price_min := some 2500, sell_price_max := some 2500,
         buy_price_min := none, buy_price_max := none, item_count := some 10 }]
      [{ item_id := "T4_BAG", location := "Caerleon", quality := 1,
         timestamp := "2026-01-15 10:00:00",
         sell_price_min := some 2500, sell_price_max := some 2500,
         buy_price_min := some 7000, buy_price_max := none,
         item_count := some 10 }]).1 =
      [{ item_id := "T4_BAG", location := "Caerleon", quality := 1,
         timestamp := "2026-01-15 10:00:00",
         sell_price_min := some 2500, sell_price_max := some 2500,
         buy_price_min := some 7000, buy_price_max := none,
         item_count := some 10 }] := by
  constructor
  · exact (C10_bulk_inserted_count_is_net_new_keys
      [{ item_id := "T4_BAG", location := "Caerleon", quality := 1,
         timestamp := "2026-01-15 10:00:00",
         sell_price_min := some 2500, sell_price_max := some 2500,
         buy_price_min := none, buy_price_max := none, item_count := some 10 }]
      [{ item_id := "T4_BAG", location := "Caerleon", quality := 1,
         timestamp := "2026-01-15 10:00:00",
         sell_price_min := some 2500, sell_price_max := some 2500,
         buy_price_min := some 7000, buy_price_max := none,
         item_count := some 10 }]).2
      (by intro r hr; refine ⟨_, List.mem_singleton.mpr rfl, ?_⟩
          simp only [List.mem_singleton] at hr
          rw [hr]; decide)
  · decide

/-! ## Lemmas about the selection policy -/

theorem dtLtProp_total {a b : PyDateTime} (h1 : ¬ dtLtProp a b) (h2 : ¬ a = b) :
    dtLtProp b a := by
  obtain ⟨p1, p2, p3, p4, p5, p6⟩ := a
  obtain ⟨r1, r2, r3, r4, r5, r6⟩ := b
  simp only [dtLtProp, PyDateTime.mk.injEq, not_or, not_and] at h1 h2 ⊢
  omega

theorem dtLtProp_trans {a b c : PyDateTime} (h1 : dtLtProp a b)
    (h2 : dtLtProp b c) : dtLtProp a c := by
  obtain ⟨p1, p2, p3, p4, p5, p6⟩ := a
  obtain ⟨q1, q2, q3, q4, q5, q6⟩ := b
  obtain ⟨r1, r2, r3, r4, r5, r6⟩ := c
  simp only [dtLtProp, PyDateTime.mk.injEq] at h1 h2 ⊢
  omega

theorem keyLe_refl (a : PyDateTime × PyDateTime) : keyLe a a = true := by
  simp [keyLe, keyLeProp]

theorem keyLe_total {a b : PyDateTime × PyDateTime} (h : keyLe a b = false) :
    keyLe b a = true := by
  rw [keyLe, decide_eq_false_iff_not] at h
  rw [keyLe, decide_eq_true_eq]
  rw [keyLeProp, not_or, not_and] at h
  obtain ⟨hlt, himp⟩ := h
  by_cases heq : a.1 = b.1
  · have hrest := himp heq
    rw [not_or] at hrest
    obtain ⟨hlt2, hne2⟩ := hrest
    exact Or.inr ⟨heq.symm, Or.inl (dtLtProp_total hlt2 hne2)⟩
  · exact Or.inl (dtLtProp_total hlt heq)

theorem keyLe_trans {a b c : PyDateTime × PyDateTime} (h1 : keyLe a b = true)
    (h2 : keyLe b c = true) : keyLe a c = true := by
  rw [keyLe, decide_eq_true_eq] at h1 h2 ⊢
  rcases h1 with h1 | ⟨he1, h1r⟩
  · rcases h2 with h2 | ⟨he2, _⟩
    · exact Or.inl (dtLtProp_trans h1 h2)
    · exact Or.inl (he2 ▸ h1)
  · rcases h2 with h2 | ⟨he2, h2r⟩
    · exact Or.inl (he1 ▸ h2)
    · refine Or.inr ⟨he1.trans he2, ?_⟩
      rcases h1r with h1r | h1e
      · rcases h2r with h2r | h2e
        · exact Or.inl (dtLtProp_trans h1r h2r)
        · exact Or.inl (h2e ▸ h1r)
      · rcases h2r with h2r | h2e
        · exact Or.inl (h1e ▸ h2r)
        · exact Or.inr (h1e.trans h2e)

theorem insertDescDump_ne_nil (x : DumpInfo) (l : List DumpInfo) :
    insertDescDump x l ≠ [] := by
  cases l with
  | nil => simp [insertDescDump]
  | cons y ys =>
    unfold insertDescDump
    by_cases h : keyLe (dailySnapshotSortKey y) (dailySnapshotSortKey x) = true
    · simp [h]
    · simp [h]

theorem sortDescDumps_eq_nil {l : List DumpInfo} (h : sortDescDumps l = []) :
    l = [] := by
  cases l with
  | nil => rfl
  | cons x xs =>
    rw [sortDescDumps] at h
    exact absurd h (insertDescDump_ne_nil x (sortDescDumps xs))

theorem sortDescDumps_head_max :
    ∀ (l : List DumpInfo) (d : DumpInfo) (rest : List DumpInfo),
      sortDescDumps l = d :: rest →
      ∀ e ∈ l, keyLe (dailySnapshotSortKey e) (dailySnapshotSortKey d) = true := by
  intro l
  induction l with
  | nil => intro d rest h; simp [sortDescDumps] at h
  | cons x xs ih =>
    intro d rest h e he
    rw [sortDescDumps] at h
    cases hs : sortDescDumps xs with
    | nil =>
      rw [hs] at h
      have hxs : xs = [] := sortDescDumps_eq_nil hs
      subst hxs
      simp only [insertDescDump] at h
      injection h with h1 _
      subst h1
      simp only [List.mem_singleton] at he
      subst he
      exact keyLe_refl _
    | cons y ys =>
      rw [hs] at h
      rw [insertDescDump] at h
      by_cases hc : keyLe (dailySnapshotSortKey y) (dailySnapshotSortKey x) = true
      · rw [if_pos hc] at h
        injection h with h1 _
        subst h1
        rcases List.mem_cons.mp he with rfl | hexs
        · exact keyLe_refl _
        · exact keyLe_trans (ih y ys hs e hexs) hc
      · rw [if_neg hc] at h
        injection h with h1 _
        subst h1
        rcases List.mem_cons.mp he with rfl | hexs
        · exact keyLe_total (Bool.eq_false_iff.mpr hc)
        · exact ih y ys hs e hexs

theorem findNewer_sound :
    ∀ (l : List DumpInfo) (m : PyDateTime) (d : DumpInfo),
      findNewer m l = some d →
      dumpCoverageEnd d = none ∨
        ∃ ce, dumpCoverageEnd d = some ce ∧ dtLt m ce = true := by
  intro l
  induction l with
  | nil => intro m d h; simp [findNewer] at h
  | cons x rest ih =>
    intro m d h
    rw [findNewer] at h
    split at h
    next hce =>
      injection h with h1
      subst h1
      exact Or.inl hce
    next ce hce =>
      by_cases hlt : dtLt m ce = true
      · rw [if_pos hlt] at h
        injection h with h1
        subst h1
        exact Or.inr ⟨ce, hce, hlt⟩
      · rw [if_neg hlt] at h
        exact ih m d h

theorem findNewer_eq_find? (m : PyDateTime) :
    ∀ l : List DumpInfo, findNewer m l = l.find? (newerCoverage m) := by
  intro l
  induction l with
  | nil => rfl
  | cons d rest ih =>
    cases hce : dumpCoverageEnd d with
    | none =>
      have hp : newerCoverage m d = true := by simp [newerCoverage, hce]
      simp [findNewer, hce, List.find?_cons, hp]
    | some ce =>
      by_cases hlt : dtLt m ce = true
      · have hp : newerCoverage m d = true := by simp [newerCoverage, hce, hlt]
        simp [findNewer, hce, hlt, List.find?_cons, hp]
      · have hp : newerCoverage m d = false := by
          simp only [newerCoverage, hce]
          exact Bool.eq_false_iff.mpr hlt
        simp [findNewer, hce, hlt, List.find?_cons, hp, ih]

theorem pickNewerCoverageDump_some_eq_find? (l : List DumpInfo) (m : PyDateTime) :
    pickNewerCoverageDump l (some m) = l.find? (newerCoverage m) := by
  cases l with
  | nil => rfl
  | cons d rest => simp [pickNewerCoverageDump, findNewer_eq_find?]

theorem take_max_one_singleton {α : Type} (d : α) (maxDumps : Nat) :
    [d].take (max 1 maxDumps) = [d] := by
  have h1 : 1 ≤ max 1 maxDumps := le_max_left 1 maxDumps
  obtain ⟨k, hk⟩ := Nat.exists_eq_add_of_le h1
  rw [hk]
  simp [List.take, Nat.add_comm 1 k]

/-- C3: once the store has a current max timestamp, every snapshot returned
by the recommendation policy has inestimable coverage or a coverage end
strictly greater than that max; in particular no snapshot with coverage end
less than or equal to the current max is ever returned. -/
theorem C3_monotonic_coverage :
    ∀ (imported : List String) (available : List DumpInfo) (maxDumps : Nat)
      (m : PyDateTime) (d : DumpInfo),
      d ∈ getRecommendedDumps imported (some m) available maxDumps →
      dumpCoverageEnd d = none ∨
        ∃ ce, dumpCoverageEnd d = some ce ∧ dtLt m ce = true := by
  intro imported available maxDumps m d hmem
  unfold getRecommendedDumps at hmem
  cases hsorted : sortDescDumps (dailyCandidates imported available) with
  | nil =>
    rw [hsorted] at hmem
    simp [pickNewerCoverageDump] at hmem
  | cons s0 srest =>
    rw [hsorted] at hmem
    simp only [pickNewerCoverageDump] at hmem
    cases hpick : findNewer m (s0 :: srest) with
    | none => rw [hpick] at hmem; simp at hmem
    | some c =>
      rw [hpick] at hmem
      have hdc : d ∈ [c] := List.take_subset _ _ hmem
      simp only [List.mem_singleton] at hdc
      subst hdc
      exact findNewer_sound (s0 :: srest) m d hpick

/-- Witness for C3 at a concrete store max `2026-01-10 00:00:00` and two
daily snapshots (2026-01-09 and 2026-01-15): the returned snapshot has a
coverage end strictly newer than the max. -/
theorem C3_monotonic_coverage_witness :
    dumpCoverageEnd
      { name := "db_backup_2026-01-15.tgz", url := "u2", size_bytes := 5,
        modified_date := { year := 2026, month := 1, day := 15, hour := 1,
                           minute := 0, second := 0 },
        dump_type := "daily" } = none ∨
    ∃ ce, dumpCoverageEnd
      { name := "db_backup_2026-01-15.tgz", url := "u2", size_bytes := 5,
        modified_date := { year := 2026, month := 1, day := 15, hour := 1,
                           minute := 0, second := 0 },
        dump_type := "daily" } = some ce ∧
      dtLt { year := 2026, month := 1, day := 10, hour := 0, minute := 0,
             second := 0 } ce = true :=
  C3_monotonic_coverage []
    [{ name := "db_backup_2026-01-09.tgz", url := "u1", size_bytes := 5,
       modified_date := { year := 2026, month := 1, day := 9, hour := 1,
                          minute := 0, second := 0 },
       dump_type := "daily" },
     { name := "db_backup_2026-01-15.tgz", url := "u2", size_bytes := 5,
       modified_date := { year := 2026, month := 1, day := 15, hour := 1,
                          minute := 0, second := 0 },
       dump_type := "daily" }] 1
    { year := 2026, month := 1, day := 10, hour := 0, minute := 0, second := 0 }
    { name := "db_backup_2026-01-15.tgz", url := "u2", size_bytes := 5,
      modified_date := { year := 2026, month := 1, day := 15, hour := 1,
                         minute := 0, second := 0 },
      dump_type := "daily" }
    (by decide)

/-- C4, counterexample: with an empty store (`currentMax = none`),
`max_count = 2` and two eligible daily candidates, the policy returns one
snapshot, not `min 2 2 = 2`: the code returns at most the single first
eligible candidate (`[daily_candidate][:max(1, max_dumps)]`). -/
theorem C4_counterexample_returns_one_not_min :
    (getRecommendedDumps [] none
      [{ name := "db_backup_2026-01-14.tgz", url := "u1", size_bytes := 5,
         modified_date := { year := 2026, month := 1, day := 14, hour := 1,
                            minute := 0, second := 0 },
         dump_type := "daily" },
       { name := "db_backup_2026-01-15.tgz", url := "u2", size_bytes := 5,
         modified_date := { year := 2026, month := 1, day := 15, hour := 1,
                            minute := 0, second := 0 },
         dump_type := "daily" }] 2).length = 1 ∧
    (dailyCandidates []
      [{ name := "db_backup_2026-01-14.tgz", url := "u1", size_bytes := 5,
         modified_date := { year := 2026, month := 1, day := 14, hour := 1,
                            minute := 0, second := 0 },
         dump_type := "daily" },
       { name := "db_backup_2026-01-15.tgz", url := "u2", size_bytes := 5,
         modified_date := { year := 2026, month := 1, day := 15, hour := 1,
                            minute := 0, second := 0 },
         dump_type := "daily" }]).length = 2 ∧
    (1 : Nat) ≠ min 2 2 := by
  refine ⟨by decide, by decide, by decide⟩

/-- C4 (amended): the policy returns at most one snapshot per call — the
first candidate of the coverage-descending walk whose coverage end is
inestimable or strictly newer than the store's current max — regardless of
`max_count`.  With a current max `m`, the result is exactly `[d]` for the
first eligible candidate `d` of the sorted walk (`List.find?`), `[]` when no
candidate is eligible, and its length is `min 1 k` for `k` eligible
candidates.  When the store has no data at all, the head of the
descending-sorted candidate list — whose sort key dominates every
candidate's, the newest candidate — is picked. -/
theorem C4_picks_single_first_eligible :
    ∀ (imported : List String) (currentMax : Option PyDateTime)
      (available : List DumpInfo) (maxDumps : Nat),
      (getRecommendedDumps imported currentMax available maxDumps).length ≤ 1 ∧
      (∀ m : PyDateTime, currentMax = some m →
        (∀ d : DumpInfo,
          (sortDescDumps (dailyCandidates imported available)).find?
            (newerCoverage m) = some d →
          getRecommendedDumps imported currentMax available maxDumps = [d]) ∧
        ((sortDescDumps (dailyCandidates imported available)).find?
            (newerCoverage m) = none →
          getRecommendedDumps imported currentMax available maxDumps = []) ∧
        (getRecommendedDumps imported currentMax available maxDumps).length =
          min 1 ((sortDescDumps (dailyCandidates imported available)).countP
            (newerCoverage m))) ∧
      (currentMax = none →
        ∀ (d : DumpInfo) (rest : List DumpInfo),
          sortDescDumps (dailyCandidates imported available) = d :: rest →
          getRecommendedDumps imported currentMax available maxDumps = [d] ∧
          ∀ e ∈ dailyCandidates imported available,
            keyLe (dailySnapshotSortKey e) (dailySnapshotSortKey d) = true) := by
  intro imported currentMax available maxDumps
  refine ⟨?_, ?_, ?_⟩
  · unfold getRecommendedDumps
    cases hpick : pickNewerCoverageDump
        (sortDescDumps (dailyCandidates imported available)) currentMax with
    | none => simp
    | some c =>
      simp only [List.length_take, List.length_singleton]
      exact min_le_right _ 1
  · intro m hm
    subst hm
    refine ⟨?_, ?_, ?_⟩
    · intro d hfind
      unfold getRecommendedDumps
      rw [pickNewerCoverageDump_some_eq_find?, hfind]
      exact take_max_one_singleton d maxDumps
    · intro hfind
      unfold getRecommendedDumps
      rw [pickNewerCoverageDump_some_eq_find?, hfind]
    · cases hfind : (sortDescDumps (dailyCandidates imported available)).find?
          (newerCoverage m) with
      | some d =>
        have hres : getRecommendedDumps imported (some m) available maxDumps = [d] := by
          unfold getRecommendedDumps
          rw [pickNewerCoverageDump_some_eq_find?, hfind]
          exact take_max_one_singleton d maxDumps
        have hp : newerCoverage m d = true := List.find?_some hfind
        have hmem : d ∈ sortDescDumps (dailyCandidates imported available) :=
          List.mem_of_find?_eq_some hfind
        have hk : 0 < (sortDescDumps (dailyCandidates imported available)).countP
            (newerCoverage m) := List.countP_pos_iff.mpr ⟨d, hmem, hp⟩
        rw [hres]
        simp only [List.length_singleton]
        omega
      | none =>
        have hres : getRecommendedDumps imported (some m) available maxDumps = [] := by
          unfold getRecommendedDumps
          rw [pickNewerCoverageDump_some_eq_find?, hfind]
        have hk : (sortDescDumps (dailyCandidates imported available)).countP
            (newerCoverage m) = 0 := by
          rw [List.countP_eq_zero]
          intro a ha
          simpa using List.find?_eq_none.mp hfind a ha
        rw [hres, hk]
        rfl
  · intro hnone d rest hsorted
    subst hnone
    constructor
    · unfold getRecommendedDumps
      rw [hsorted]
      simp only [pickNewerCoverageDump]
      exact take_max_one_singleton d maxDumps
    · exact sortDescDumps_head_max _ d rest hsorted

/-- Witness for the amended C4: for a store with max `2026-01-12 00:00:00`
and candidates 2026-01-11 (already covered) and 2026-01-15 (newer), the
policy returns exactly the first eligible candidate of the descending walk,
the 2026-01-15 snapshot; and for an empty store with the counterexample's
two snapshots and `max_count = 5`, the newest snapshot is picked. -/
theorem C4_picks_single_first_eligible_witness :
    getRecommendedDumps []
      (some { year := 2026, month := 1, day := 12, hour := 0, minute := 0,
              second := 0 })
      [{ name := "db_backup_2026-01-11.tgz", url := "u1", size_bytes := 5,
         modified_date := { year := 2026, month := 1, day := 11, hour := 1,
                            minute := 0, second := 0 },
         dump_type := "daily" },
       { name := "db_backup_2026-01-15.tgz", url := "u2", size_bytes := 5,
         modified_date := { year := 2026, month := 1, day := 15, hour := 1,
                            minute := 0, second := 0 },
         dump_type := "daily" }] 3 =
      [{ name := "db_backup_2026-01-15.tgz", url := "u2", size_bytes := 5,
         modified_date := { year := 2026, month := 1, day := 15, hour := 1,
                            minute := 0, second := 0 },
         dump_type := "daily" }] ∧
    getRecommendedDumps [] none
      [{ name := "db_backup_2026-01-14.tgz", url := "u1", size_bytes := 5,
         modified_date := { year := 2026, month := 1, day := 14, hour := 1,
                            minute := 0, second := 0 },
         dump_type := "daily" },
       { name := "db_backup_2026-01-15.tgz", url := "u2", size_bytes := 5,
         modified_date := { year := 2026, month := 1, day := 15, hour := 1,
                            minute := 0, second := 0 },
         dump_type := "daily" }] 5 =
      [{ name := "db_backup_2026-01-15.tgz", url := "u2", size_bytes := 5,
         modified_date := { year := 2026, month := 1, day := 15, hour := 1,
                            minute := 0, second := 0 },
         dump_type := "daily" }] := by
  constructor
  · exact ((C4_picks_single_first_eligible []
      (some { year := 2026, month := 1, day := 12, hour := 0, minute := 0,
              second := 0 })
      [{ name := "db_backup_2026-01-11.tgz", url := "u1", size_bytes := 5,
         modified_date := { year := 2026, month := 1, day := 11, hour := 1,
                            minute := 0, second := 0 },
         dump_type := "daily" },
       { name := "db_backup_2026-01-15.tgz", url := "u2", size_bytes := 5,
         modified_date := { year := 2026, month := 1, day := 15, hour := 1,
                            minute := 0, second := 0 },
         dump_type := "daily" }] 3).2.1
      { year := 2026, month := 1, day := 12, hour := 0, minute := 0,
        second := 0 } rfl).1
      { name := "db_backup_2026-01-15.tgz", url := "u2", size_bytes := 5,
        modified_date := { year := 2026, month := 1, day := 15, hour := 1,
                           minute := 0, second := 0 },
        dump_type := "daily" }
      (by decide)
  · exact (((C4_picks_single_first_eligible [] none
      [{ name := "db_backup_2026-01-14.tgz", url := "u1", size_bytes := 5,
         modified_date := { year := 2026, month := 1, day := 14, hour := 1,
                            minute := 0, second := 0 },
         dump_type := "daily" },
       { name := "db_backup_2026-01-15.tgz", url := "u2", size_bytes := 5,
         modified_date := { year := 2026, month := 1, day := 15, hour := 1,
                            minute := 0, second := 0 },
         dump_type := "daily" }] 5).2.2 rfl)
      { name := "db_backup_2026-01-15.tgz", url := "u2", size_bytes := 5,
        modified_date := { year := 2026, month := 1, day := 15, hour := 1,
                           minute := 0, second := 0 },
        dump_type := "daily" }
      [{ name := "db_backup_2026-01-14.tgz", url := "u1", size_bytes := 5,
         modified_date := { year := 2026, month := 1, day := 14, hour := 1,
                            minute := 0, second := 0 },
         dump_type := "daily" }]
      (by decide)).1

/-- C8: decoding the single data line `T4_BAG\t1002\t2\t2026-01-15
10:00:00\t2500` under the column list `(item_unique_name, location,
quality_level, timestamp, silver_amount)` yields exactly one staging row
with `item_id="T4_BAG"`, `location="Caerleon"`, `quality=2`,
`sell_min=sell_max=2500`, null buy prices; and because the column list
drives a name→index map, the column-permuted source (with the data fields
permuted the same way) decodes to the identical row. -/
theorem C8_copy_decoder_round_trip :
    recordFromCopyFields
      (splitCopyLine "T4_BAG\t1002\t2\t2026-01-15 10:00:00\t2500")
      (buildColumnMap
        ["item_unique_name", "location", "quality_level", "timestamp",
         "silver_amount"]) =
      some
        { item_id := some "T4_BAG", location := some "Caerleon",
          quality := some 2, timestamp := some "2026-01-15 10:00:00",
          sell_price_min := some 2500, sell_price_max := some 2500,
          buy_price_min := none, buy_price_max := none, item_count := none } ∧
    recordFromCopyFields
      (splitCopyLine "2500\t2026-01-15 10:00:00\t2\t1002\tT4_BAG")
      (buildColumnMap
        ["silver_amount", "timestamp", "quality_level", "location",
         "item_unique_name"]) =
      recordFromCopyFields
        (splitCopyLine "T4_BAG\t1002\t2\t2026-01-15 10:00:00\t2500")
        (buildColumnMap
          ["item_unique_name", "location", "quality_level", "timestamp",
           "silver_amount"]) := by
  refine ⟨by decide, by decide⟩

/-- C6, counterexample: for the two records of the claim (per-stack
`sell_min=2500` with `item_count=50`, i.e. 50 per unit, and `sell_min=2600`
with `item_count=30`, i.e. 86.67 per unit), daily aggregation yields one
bucket with `avg_sell_min = round((50 + 2600/30)/2) = 68` and
`total_volume = 80` — not the claimed average of 50. -/
theorem C6_counterexample_avg_is_68_not_50 :
    getAggregatedHistoryDaily
      [{ item_id := "T4_BAG", location := "Caerleon", quality := 1,
         timestamp := "2026-01-15 10:00:00",
         sell_price_min := some 2500, sell_price_max := some 2500,
         buy_price_min := none, buy_price_max := none, item_count := some 50 },
       { item_id := "T4_BAG", location := "Caerleon", quality := 1,
         timestamp := "2026-01-15 14:00:00",
         sell_price_min := some 2600, sell_price_max := some 2600,
         buy_price_min := none, buy_price_max := none, item_count := some 30 }]
      "T4_BAG" none none none none =
      [{ period := "2026-01-15", location := "Caerleon", quality := 1,
         avg_sell_min := some 68, avg_sell_max := some 68,
         avg_buy_min := none, avg_buy_max := none,
         total_volume := some 80, data_points := 2 }] ∧
    (some (68 : Int) ≠ some (50 : Int)) := by
  refine ⟨by decide, by decide⟩

/-- C6 (amended): the two records aggregate to one daily bucket whose
average per-unit sell-min is 68 (the rounded mean of the per-unit prices
2500/50 and 2600/30) and whose `total_volume` is 80; the per-unit price of
a record is its per-stack price divided by `item_count`, a null or zero
`item_count` dividing by 1. -/
theorem C6_aggregation_daily_bucket :
    getAggregatedHistoryDaily
      [{ item_id := "T4_BAG", location := "Caerleon", quality := 1,
         timestamp := "2026-01-15 10:00:00",
         sell_price_min := some 2500, sell_price_max := some 2500,
         buy_price_min := none, buy_price_max := none, item_count := some 50 },
       { item_id := "T4_BAG", location := "Caerleon", quality := 1,
         timestamp := "2026-01-15 14:00:00",
         sell_price_min := some 2600, sell_price_max := some 2600,
         buy_price_min := none, buy_price_max := none, item_count := some 30 }]
      "T4_BAG" none none none none =
      [{ period := "2026-01-15", location := "Caerleon", quality := 1,
         avg_sell_min := some 68, avg_sell_max := some 68,
         avg_buy_min := none, avg_buy_max := none,
         total_volume := some 80, data_points := 2 }] ∧
    perItemPrice (some 2500) (some 50) = some { num := 2500, den := 50 } ∧
    perItemPrice (some 2600) (some 30) = some { num := 2600, den := 30 } ∧
    (∀ p : Int, perItemPrice (some p) none = some { num := p, den := 1 }) ∧
    (∀ p : Int, perItemPrice (some p) (some 0) = some { num := p, den := 1 }) := by
  refine ⟨by decide, by decide, by decide, ?_, ?_⟩
  · intro p
    simp [perItemPrice, coalesceNullifItemCount]
  · intro p
    simp [perItemPrice, coalesceNullifItemCount]

/-- Flushing the final partial batch never changes the section flag. -/
theorem finalFlush_foundSection (st : SqlStreamState) :
    (if st.batch.isEmpty then st
     else { st with inserted := st.inserted + st.batch.length, batch := [] }).foundSection =
      st.foundSection := by
  by_cases hb : st.batch.isEmpty <;> simp [hb]

/-- C2, counterexample: for a stream with zero recognized `market_history`
statements, the legacy path raises the hard error, but the default
bulk-loading path does not: it produces a benign zero-record import that is
recorded in the import metadata — so the hard error does **not** hold on
every import path. -/
theorem C2_counterexample_bulk_path_has_no_hard_error :
    ((["CREATE TABLE foo (id INTEGER);"] : List String).foldl
      (legacyStreamLine none 10000) initSqlStream).foundSection = false ∧
    importFromSqlStream ["CREATE TABLE foo (id INTEGER);"] "dump.sql" 10000 none =
      Except.error "No market_history data found in dump.sql" ∧
    processOneDump (importDumpBulkResult [] ["CREATE TABLE foo (id INTEGER);"] none) =
      { imported := true, errorMsg := none, metadataRecordCount := some 0 } := by
  refine ⟨by decide, by decide, by decide⟩

/-- C2 (amended): a stream with zero recognized `market_history` statements
is the hard error `"No market_history data found in <source>"` on the
legacy import path only; a stream with a recognized section never raises it
there; and on the default bulk-loading path a zero-record parse (whether
from zero sections or from a dump fully covered by the cutoff) is a benign
zero import whose outcome is recorded in the import metadata with count
0. -/
theorem C2_zero_section_error_legacy_benign_bulk :
    (∀ (lines : List String) (label : String) (bs : Nat) (minTs : Option String),
      (lines.foldl (legacyStreamLine (normalizeTimestampForCompare minTs) bs)
        initSqlStream).foundSection = false →
      importFromSqlStream lines label bs minTs =
        Except.error ("No market_history data found in " ++ label)) ∧
    (∀ (lines : List String) (label : String) (bs : Nat) (minTs : Option String),
      (lines.foldl (legacyStreamLine (normalizeTimestampForCompare minTs) bs)
        initSqlStream).foundSection = true →
      ∃ n ds de, importFromSqlStream lines label bs minTs = Except.ok (n, ds, de)) ∧
    (∀ (table : List HistoryRow) (lines : List String) (minTs : Option String),
      (streamSqlToCsv lines (normalizeTimestampForCompare minTs)).count = 0 →
      processOneDump (importDumpBulkResult table lines minTs) =
        { imported := true, errorMsg := none, metadataRecordCount := some 0 }) := by
  refine ⟨?_, ?_, ?_⟩
  · intro lines label bs minTs h
    unfold importFromSqlStream
    dsimp only
    rw [finalFlush_foundSection, h]
    rfl
  · intro lines label bs minTs h
    unfold importFromSqlStream
    dsimp only
    rw [finalFlush_foundSection, h]
    exact ⟨_, _, _, rfl⟩
  · intro table lines minTs h
    unfold processOneDump importDumpBulkResult importWithBulkLoading
    dsimp only
    rw [h]
    rfl

set_option maxRecDepth 40000 in
/-- Witness for the amended C2: a zero-section stream errors on the legacy
path; a fully-cutoff-covered `market_history` COPY section is a benign
`ok` on the legacy path; the zero-section stream is a benign recorded
zero-import on the bulk path. -/
theorem C2_zero_section_error_legacy_benign_bulk_witness :
    importFromSqlStream ["CREATE TABLE foo (id INTEGER);"] "dump.sql" 10000 none =
      Except.error ("No market_history data found in " ++ "dump.sql") ∧
    (∃ n ds de,
      importFromSqlStream
        ["COPY public.market_history (item_unique_name, location, quality_level, \"timestamp\", silver_amount) FROM stdin;",
         "T4_BAG\t1002\t2\t2020-01-01 00:00:00\t100",
         "\\."] "dump.sql" 10000 (some "2026-01-15 10:00:00") =
        Except.ok (n, ds, de)) ∧
    processOneDump (importDumpBulkResult [] ["CREATE TABLE foo (id INTEGER);"] none) =
      { imported := true, errorMsg := none, metadataRecordCount := some 0 } := by
  refine ⟨?_, ?_, ?_⟩
  · exact C2_zero_section_error_legacy_benign_bulk.1
      ["CREATE TABLE foo (id INTEGER);"] "dump.sql" 10000 none (by decide)
  · exact C2_zero_section_error_legacy_benign_bulk.2.1
      ["COPY public.market_history (item_unique_name, location, quality_level, \"timestamp\", silver_amount) FROM stdin;",
       "T4_BAG\t1002\t2\t2020-01-01 00:00:00\t100",
       "\\."] "dump.sql" 10000 (some "2026-01-15 10:00:00") (by decide)
  · exact C2_zero_section_error_legacy_benign_bulk.2.2
      [] ["CREATE TABLE foo (id INTEGER);"] none (by decide)

end AlbionHelper
